import Mathlib

/-!
Shallow embedding of the vLLM load-balancer gateway
(`src/models.py`, `src/utils.py`, `src/handler.py`) and proofs about it.

Conventions of the embedding:
* Python floats become `ℚ`; machine floats never overflow in the ranges the
  program validates, so rational arithmetic is exact for every comparison the
  code performs.
* `random_uuid()` is modelled by a supply `freshId : Nat → String`, indexed by
  call order inside one request.
* The vLLM engine is an external collaborator; one call to `engine.generate`
  is modelled by an `EngineOutcome`: either the finite list of `RequestOutput`
  values the async iterator yields, or an exception raised after some prefix
  of them has been yielded.
* FastAPI dispatch rejects a request body violating the pydantic `Field`
  constraints of `models.py` before the handler runs; that rejection is
  modelled as a `failed` result with kind tag "ValidationError" and the
  handler's instrumentation flags all `false`.
* `fastapi.HTTPException` is a subclass of `Exception`, so an
  `HTTPException` raised inside a handler's `try` block is caught by that
  handler's own blanket `except Exception` clause; the embedding reproduces
  this (see `chat_completions` below, handler.py lines 201-259).
-/

namespace VllmLB

/-- models.py line 6: `role: Literal["system", "user", "assistant"]`. -/
inductive Role where
  | system
  | user
  | assistant
deriving DecidableEq

/-- models.py lines 5-7: `ChatMessage`. -/
structure ChatMessage where
  role : Role
  content : String
deriving DecidableEq

/-- models.py line 18 / line 35: `stop: Optional[Union[str, List[str]]]`. -/
inductive StopSpec where
  | noStop
  | one (s : String)
  | many (ss : List String)
deriving DecidableEq

/-- models.py lines 10-19: `GenerationRequest` with its pydantic defaults. -/
structure GenerationRequest where
  prompt : String
  max_tokens : Int := 512
  temperature : ℚ := mkRat 7 10
  top_p : ℚ := mkRat 9 10
  top_k : Int := -1
  frequency_penalty : ℚ := 0
  presence_penalty : ℚ := 0
  stop : StopSpec := .noStop
  stream : Bool := false
deriving DecidableEq

/-- models.py lines 30-36: `ChatCompletionRequest` with its pydantic defaults. -/
structure ChatCompletionRequest where
  messages : List ChatMessage
  max_tokens : Int := 512
  temperature : ℚ := mkRat 7 10
  top_p : ℚ := mkRat 9 10
  stop : StopSpec := .noStop
  stream : Bool := false
deriving DecidableEq

/-- models.py lines 22-27: `GenerationResponse`. The code passes the engine's
`finish_reason` straight through, so the field is kept optional here. -/
structure GenerationResponse where
  text : String
  finish_reason : Option String
  prompt_tokens : Nat
  completion_tokens : Nat
  total_tokens : Nat
deriving DecidableEq

/-- models.py lines 39-42: `ErrorResponse`. -/
structure ErrorResponse where
  error : String
  detail : String
  request_id : Option String
deriving DecidableEq

/-- utils.py lines 38-39: `create_error_response`. -/
def create_error_response (error : String) (detail : String)
    (request_id : Option String) : ErrorResponse :=
  ⟨error, detail, request_id⟩

/-- The pydantic `Field` range checks of models.py lines 11-19, applied by
FastAPI before `generate_completion` runs. -/
def validGenerationRequest (r : GenerationRequest) : Bool :=
  decide (1 ≤ r.max_tokens) && decide (r.max_tokens ≤ 4096)
    && decide (0 ≤ r.temperature) && decide (r.temperature ≤ 2)
    && decide (0 ≤ r.top_p) && decide (r.top_p ≤ 1)
    && decide (-1 ≤ r.top_k)
    && decide (-2 ≤ r.frequency_penalty) && decide (r.frequency_penalty ≤ 2)
    && decide (-2 ≤ r.presence_penalty) && decide (r.presence_penalty ≤ 2)

/-- The pydantic `Field` range checks of models.py lines 31-36. -/
def validChatCompletionRequest (r : ChatCompletionRequest) : Bool :=
  decide (1 ≤ r.max_tokens) && decide (r.max_tokens ≤ 4096)
    && decide (0 ≤ r.temperature) && decide (r.temperature ≤ 2)
    && decide (0 ≤ r.top_p) && decide (r.top_p ≤ 1)

/-- One element of vLLM's `RequestOutput.outputs`. -/
structure CompletionOutput where
  text : String
  finish_reason : Option String
  token_ids : List Nat
deriving DecidableEq

/-- One `RequestOutput` yielded by `engine.generate`'s async iterator. -/
structure RequestOutput where
  prompt_token_ids : Option (List Nat)
  outputs : List CompletionOutput
deriving DecidableEq

/-- The observable behaviour of one `engine.generate` call: the iterator either
completes after yielding `units`, or raises with message `msg` after yielding
`emitted` (exceptions surface at the `async for` suspension points, i.e. at
unit boundaries). -/
inductive EngineOutcome where
  | ok (units : List RequestOutput)
  | raised (emitted : List RequestOutput) (msg : String)
deriving DecidableEq

/-- Python `str.isspace` characters relevant to `str.split()`. -/
def pyIsSpace (c : Char) : Bool :=
  c = ' ' || c = '\t' || c = '\n' || c = '\r' || c = '\x0b' || c = '\x0c'

/-- Scanner for Python `str.split()` with no argument: `cur` is the word
being accumulated; whitespace ends a word and empty words are not produced. -/
def pySplitGo (cur : List Char) : List Char → List String
  | [] => if cur.isEmpty then [] else [String.mk cur]
  | c :: cs =>
      if pyIsSpace c then
        if cur.isEmpty then pySplitGo [] cs
        else String.mk cur :: pySplitGo [] cs
      else pySplitGo (cur ++ [c]) cs

/-- Python `s.split()` with no argument: split on whitespace runs and drop the
empty pieces. Used by handler.py lines 159 and 249 as the fallback token
count. -/
def pySplit (s : String) : List String :=
  pySplitGo [] s.data

/-- One hexadecimal digit, lower case, as emitted by `json.dumps` in
`\uXXXX` escapes. -/
def hexDigit (n : Nat) : Char :=
  if n < 10 then Char.ofNat (48 + n) else Char.ofNat (87 + n)

/-- Four-digit hexadecimal rendering of a code point below 0x10000. -/
def hex4 (n : Nat) : String :=
  String.mk [hexDigit (n / 4096 % 16), hexDigit (n / 256 % 16),
    hexDigit (n / 16 % 16), hexDigit (n % 16)]

/-- `json.dumps` escaping of a single character inside a JSON string. -/
def jsonEscapeChar (c : Char) : String :=
  if c = '"' then "\\\""
  else if c = '\\' then "\\\\"
  else if c = '\n' then "\\n"
  else if c = '\r' then "\\r"
  else if c = '\t' then "\\t"
  else if c = '\x08' then "\\b"
  else if c = '\x0c' then "\\f"
  else if c.toNat < 32 then "\\u" ++ hex4 c.toNat
  else String.singleton c

/-- `json.dumps` of a Python `str`. -/
def jsonStr (s : String) : String :=
  "\"" ++ (String.join (s.data.map jsonEscapeChar) ++ "\"")

/-- `json.dumps` of `None` versus a string (the `finish_reason` slot). -/
def jsonNullable : Option String → String
  | Option.none => "null"
  | some s => jsonStr s

/-- handler.py line 184: `json.dumps({'text': ..., 'finish_reason': ...})`
with the default `", "` / `": "` separators and insertion order. -/
def jsonStreamPayload (text : String) (fr : Option String) : String :=
  "\x7b\"text\": " ++ (jsonStr text ++ (", \"finish_reason\": " ++ (jsonNullable fr ++ "\x7d")))

/-- handler.py line 189: `json.dumps({'error': str(e)})`. -/
def jsonErrorPayload (msg : String) : String :=
  "\x7b\"error\": " ++ (jsonStr msg ++ "\x7d")

/-- An SSE frame as emitted by `stream_completion`: `data: ` then the body
then a blank line. -/
def sseFrame (body : String) : String :=
  "data: " ++ (body ++ "\n\n")

/-- handler.py line 186: the stream terminator frame. -/
def doneFrame : String := sseFrame "[DONE]"

/-- The frames contributed by one `RequestOutput` in the streaming loop of
handler.py lines 182-184 (one frame per element of `output.outputs`). -/
def unitFrames (u : RequestOutput) : List String :=
  u.outputs.map (fun it => sseFrame (jsonStreamPayload it.text it.finish_reason))

/-- handler.py lines 178-189: `stream_completion`. On normal completion of the
engine iterator the `[DONE]` frame is emitted after the data frames; if the
iterator raises, the `except` clause emits one in-band error frame instead. -/
def stream_completion (outcome : EngineOutcome) : List String :=
  match outcome with
  | .ok units => (units.map unitFrames).flatten ++ [doneFrame]
  | .raised emitted msg =>
      (emitted.map unitFrames).flatten ++ [sseFrame (jsonErrorPayload msg)]

/-- utils.py lines 26-32: the body of the fallback loop for one message. -/
def roleLine (m : ChatMessage) : String :=
  match m.role with
  | .system => "System: " ++ (m.content ++ "\n\n")
  | .user => "Human: " ++ (m.content ++ "\n\n")
  | .assistant => "Assistant: " ++ (m.content ++ "\n\n")

/-- utils.py lines 11-35: `format_chat_prompt`. The tokenizer's optional chat
template is an external collaborator, modelled as an optional rendering
function; when present its output is returned unchanged (lines 16-22), else
the fixed fallback format is built by the accumulation loop (lines 24-35). -/
def format_chat_prompt (tmpl : Option (List ChatMessage → String))
    (messages : List ChatMessage) : String :=
  match tmpl with
  | some t => t messages
  | Option.none =>
      (messages.foldl (fun acc m => acc ++ roleLine m) "") ++ "Assistant: "

/-- A single quote character, for Python `repr` output. -/
def sq : String := String.singleton (Char.ofNat 39)

/-- Python `repr` of a `str`: the value between single quotes. -/
def pyQuoted (s : String) : String := sq ++ (s ++ sq)

/-- Python `repr` of an `Optional[str]` as it appears inside `str(dict)`. -/
def pyReprOptStr (o : Option String) : String :=
  match o with
  | Option.none => "None"
  | some s => pyQuoted s

/-- Python `str` of `ErrorResponse.model_dump()`, the dict built by
pydantic with insertion order `error`, `detail`, `request_id`. -/
def envDictStr (e : ErrorResponse) : String :=
  "\x7b" ++ pyQuoted "error" ++ ": " ++ pyQuoted e.error ++ ", " ++
    pyQuoted "detail" ++ ": " ++ pyQuoted e.detail ++ ", " ++
    pyQuoted "request_id" ++ ": " ++ pyReprOptStr e.request_id ++ "\x7d"

/-- Python `str` of a starlette `HTTPException`: `f"{status_code}: {detail}"`,
where the detail here is always an `ErrorResponse.model_dump()` dict. -/
def httpExcStr (status : Nat) (e : ErrorResponse) : String :=
  toString status ++ (": " ++ envDictStr e)

/-- handler.py line 89 / line 94 body shape: fastapi's `JSONResponse` compact
serialization of `{"status": v}`. -/
def statusBody (v : String) : String :=
  "\x7b\"status\":" ++ (jsonStr v ++ "\x7d")

/-- handler.py lines 81-94: `health_check`, returning (HTTP status, body). -/
def health_check (engine_ready : Bool) : Nat × String :=
  if engine_ready = false then (503, statusBody "initializing")
  else (200, statusBody "healthy")

/-- The process-wide state of handler.py lines 47-48: the optional engine
handle and the readiness flag, over an abstract handle type `α`. -/
structure EngState (α : Type) where
  engine : Option α
  ready : Bool
deriving DecidableEq

/-- handler.py lines 47-48: `engine = None`, `engine_ready = False` at module
load. -/
def initState (α : Type) : EngState α := ⟨Option.none, false⟩

/-- The state transitions performed by `create_engine` (handler.py lines
51-78: on success store the handle then set the flag; on exception leave the
handle as it was and clear the flag) and by the `lifespan` shutdown block
(handler.py lines 32-40: only when a handle is present, drop it and clear the
flag). -/
inductive EngStep (α : Type) : EngState α → EngState α → Prop where
  | createOk (s : EngState α) (h : α) : EngStep α s ⟨some h, true⟩
  | createFail (s : EngState α) : EngStep α s ⟨s.engine, false⟩
  | shutdown (s : EngState α) :
      EngStep α s (if s.engine.isSome then ⟨Option.none, false⟩ else s)

/-- handler.py line 114 / line 196: the readiness check
`if not engine_ready or engine is None` passes exactly when both hold. -/
def readinessCheckPasses (s : EngState α) : Bool :=
  s.ready && s.engine.isSome

/-- The invariant relating the two globals: readiness implies a live handle. -/
def EngInv (s : EngState α) : Prop :=
  s.ready = true → s.engine.isSome = true

/-- vLLM `SamplingParams` as far as the gateway populates it. -/
structure SamplingParams where
  max_tokens : Int
  temperature : ℚ
  top_p : ℚ
  top_k : Int
  frequency_penalty : ℚ
  presence_penalty : ℚ
  stop : StopSpec
deriving DecidableEq

/-- handler.py lines 121-129: the `SamplingParams` built on the completions
route. -/
def buildSamplingParams (r : GenerationRequest) : SamplingParams :=
  ⟨r.max_tokens, r.temperature, r.top_p, r.top_k,
    r.frequency_penalty, r.presence_penalty, r.stop⟩

/-- handler.py lines 213-218: the `SamplingParams` built on the chat route
(unset knobs keep vLLM's defaults). -/
def buildChatSamplingParams (r : ChatCompletionRequest) : SamplingParams :=
  ⟨r.max_tokens, r.temperature, r.top_p, -1, 0, 0, r.stop⟩

/-- OpenAI-style usage block of the chat response (handler.py lines 248-252). -/
structure ChatUsage where
  prompt_tokens : Nat
  completion_tokens : Nat
  total_tokens : Nat
deriving DecidableEq

/-- The chat-completion object returned on success (handler.py lines 236-253),
reduced to the fields the gateway computes. -/
structure ChatObject where
  id : String
  model : String
  content : String
  finish_reason : Option String
  usage : ChatUsage
deriving DecidableEq

/-- What a route hands back to the HTTP layer. -/
inductive RouteResult where
  | completion (resp : GenerationResponse)
  | chat (obj : ChatObject)
  | streamed (frames : List String)
  | failed (status : Nat) (env : ErrorResponse)
deriving DecidableEq

/-- Instrumentation recorded alongside a route's result: whether the handler
built `SamplingParams`, ran the prompt formatter, and submitted a job to the
engine. -/
structure Flags where
  paramsBuilt : Bool := false
  formatted : Bool := false
  submitted : Bool := false
deriving DecidableEq

/-- The `final_output = None; async for output in results: final_output =
output` loop of handler.py lines 142-144 and 223-225: keep the last yielded
unit, if any. -/
def lastYield (units : List RequestOutput) : Option RequestOutput :=
  units.foldl (fun _ u => some u) Option.none

/-- handler.py lines 109-176: the body of `generate_completion`, entered only
after FastAPI accepted the request body. The readiness rejection at lines
114-117 happens before the `try` block; every exception inside the `try`
block is converted at lines 172-176 into a fresh kind-"GenerationError"
envelope whose detail wraps `str(e)`. The no-output `HTTPException` of lines
146-149 is itself caught there and re-wrapped, as is the `IndexError` a
Python `outputs[0]` raises on an empty list. -/
def generate_completion {α : Type} (st : EngState α) (freshId : Nat → String)
    (req : GenerationRequest) (outcome : EngineOutcome) : RouteResult × Flags :=
  if !st.ready || st.engine.isNone then
    (.failed 503 (create_error_response "ServiceUnavailable" "Engine not ready" Option.none), {})
  else
    if req.stream then
      (.streamed (stream_completion outcome),
        {paramsBuilt := true, submitted := true})
    else
      match outcome with
      | .raised _ msg =>
          (.failed 500 (create_error_response "GenerationError"
              ("Generation failed: " ++ msg) (some (freshId 1))),
            {paramsBuilt := true, submitted := true})
      | .ok units =>
          match lastYield units with
          | Option.none =>
              (.failed 500 (create_error_response "GenerationError"
                  ("Generation failed: " ++
                    httpExcStr 500 (create_error_response "GenerationError"
                      "No output generated" (some (freshId 1))))
                  (some (freshId 2))),
                {paramsBuilt := true, submitted := true})
          | some fin =>
              match fin.outputs.head? with
              | Option.none =>
                  (.failed 500 (create_error_response "GenerationError"
                      ("Generation failed: " ++ "list index out of range")
                      (some (freshId 1))),
                    {paramsBuilt := true, submitted := true})
              | some out0 =>
                  let prompt_tokens :=
                    match fin.prompt_token_ids with
                    | some ids => ids.length
                    | Option.none => (pySplit req.prompt).length
                  let completion_tokens := out0.token_ids.length
                  (.completion ⟨out0.text, out0.finish_reason, prompt_tokens,
                      completion_tokens, prompt_tokens + completion_tokens⟩,
                    {paramsBuilt := true, submitted := true})

/-- `POST /v1/completions` as the client sees it: FastAPI's pydantic
validation, then the handler. -/
def completionsRoute {α : Type} (st : EngState α) (freshId : Nat → String)
    (req : GenerationRequest) (outcome : EngineOutcome) : RouteResult × Flags :=
  if validGenerationRequest req = false then
    (.failed 422 (create_error_response "ValidationError"
        "request field out of range" Option.none), {})
  else generate_completion st freshId req outcome

/-- handler.py lines 191-259: the body of `chat_completions`. The readiness
rejection (lines 196-199) precedes the `try` block. Everything raised inside
the `try` block — including the `HTTPException(400, ValidationError)` built
for an empty messages list at lines 204-206 and the no-output
`HTTPException` of lines 227-229 — is caught by the blanket
`except Exception` at lines 255-259 and re-wrapped as a 500 envelope with
kind "ChatCompletionError" and detail `"Chat completion failed: " + str(e)`. -/
def chat_completions {α : Type} (st : EngState α) (freshId : Nat → String)
    (tmpl : Option (List ChatMessage → String)) (model_name : String)
    (req : ChatCompletionRequest) (outcome : EngineOutcome) : RouteResult × Flags :=
  if !st.ready || st.engine.isNone then
    (.failed 503 (create_error_response "ServiceUnavailable" "Engine not ready" Option.none), {})
  else
    if req.messages.isEmpty then
      (.failed 500 (create_error_response "ChatCompletionError"
          ("Chat completion failed: " ++
            httpExcStr 400 (create_error_response "ValidationError"
              "No messages provided" Option.none))
          (some (freshId 0))), {})
    else
      let prompt := format_chat_prompt tmpl req.messages
      match outcome with
      | .raised _ msg =>
          (.failed 500 (create_error_response "ChatCompletionError"
              ("Chat completion failed: " ++ msg) (some (freshId 1))),
            {paramsBuilt := true, formatted := true, submitted := true})
      | .ok units =>
          match lastYield units with
          | Option.none =>
              (.failed 500 (create_error_response "ChatCompletionError"
                  ("Chat completion failed: " ++
                    httpExcStr 500 (create_error_response "GenerationError"
                      "No output generated" (some (freshId 0))))
                  (some (freshId 1))),
                {paramsBuilt := true, formatted := true, submitted := true})
          | some fin =>
              match fin.outputs.head? with
              | Option.none =>
                  (.failed 500 (create_error_response "ChatCompletionError"
                      ("Chat completion failed: " ++ "list index out of range")
                      (some (freshId 1))),
                    {paramsBuilt := true, formatted := true, submitted := true})
              | some out0 =>
                  let ptoks :=
                    match fin.prompt_token_ids with
                    | some ids => ids.length
                    | Option.none => (pySplit prompt).length
                  (.chat ⟨freshId 0, model_name, out0.text, out0.finish_reason,
                      ⟨ptoks, out0.token_ids.length, ptoks + out0.token_ids.length⟩⟩,
                    {paramsBuilt := true, formatted := true, submitted := true})

/-- `POST /v1/chat/completions` as the client sees it: FastAPI's pydantic
validation, then the handler. -/
def chatRoute {α : Type} (st : EngState α) (freshId : Nat → String)
    (tmpl : Option (List ChatMessage → String)) (model_name : String)
    (req : ChatCompletionRequest) (outcome : EngineOutcome) : RouteResult × Flags :=
  if validChatCompletionRequest req = false then
    (.failed 422 (create_error_response "ValidationError"
        "request field out of range" Option.none), {})
  else chat_completions st freshId tmpl model_name req outcome

/-- Spec-side rendering of §4.2 step 2: the fallback body emits one role line
per message, in order. Compared against the code's accumulation loop. -/
def fallbackBody : List ChatMessage → String
  | [] => ""
  | m :: ms => roleLine m ++ fallbackBody ms

/-! ### Helper lemmas -/

theorem append_data (s t : String) : (s ++ t).data = s.data ++ t.data :=
  String.data_append s t

theorem string_eq_of_data {s t : String} (h : s.data = t.data) : s = t := by
  cases s; cases t; simp_all

theorem sseFrame_inj {a b : String} (h : sseFrame a = sseFrame b) : a = b := by
  unfold sseFrame at h
  have h2 := congrArg String.data h
  simp only [append_data] at h2
  exact string_eq_of_data
    (List.append_cancel_right (List.append_cancel_left h2))

theorem data_get2_append (s t : String) (h : 2 < s.data.length) :
    (s ++ t).data[2]? = s.data[2]? := by
  rw [append_data]
  exact List.getElem?_append_left h

theorem jsonStreamPayload_data_get2 (t : String) (fr : Option String) :
    (jsonStreamPayload t fr).data[2]? = some 't' := by
  unfold jsonStreamPayload
  rw [data_get2_append _ _ (by decide)]
  decide

theorem jsonErrorPayload_data_get2 (m : String) :
    (jsonErrorPayload m).data[2]? = some 'e' := by
  unfold jsonErrorPayload
  rw [data_get2_append _ _ (by decide)]
  decide

theorem jsonStreamPayload_ne_done (t : String) (fr : Option String) :
    jsonStreamPayload t fr ≠ "[DONE]" := by
  intro h
  have h2 := congrArg (fun s : String => s.data[2]?) h
  simp only [jsonStreamPayload_data_get2] at h2
  exact absurd h2 (by decide)

theorem jsonErrorPayload_ne_done (m : String) : jsonErrorPayload m ≠ "[DONE]" := by
  intro h
  have h2 := congrArg (fun s : String => s.data[2]?) h
  simp only [jsonErrorPayload_data_get2] at h2
  exact absurd h2 (by decide)

theorem jsonStreamPayload_ne_errorPayload (t : String) (fr : Option String)
    (m : String) : jsonStreamPayload t fr ≠ jsonErrorPayload m := by
  intro h
  have h2 := congrArg (fun s : String => s.data[2]?) h
  simp only [jsonStreamPayload_data_get2, jsonErrorPayload_data_get2] at h2
  exact absurd h2 (by decide)

theorem dataFrame_ne_doneFrame (t : String) (fr : Option String) :
    sseFrame (jsonStreamPayload t fr) ≠ doneFrame := fun h =>
  jsonStreamPayload_ne_done t fr (sseFrame_inj h)

theorem errFrame_ne_doneFrame (m : String) :
    sseFrame (jsonErrorPayload m) ≠ doneFrame := fun h =>
  jsonErrorPayload_ne_done m (sseFrame_inj h)

theorem dataFrame_ne_errFrame (t : String) (fr : Option String) (m : String) :
    sseFrame (jsonStreamPayload t fr) ≠ sseFrame (jsonErrorPayload m) := fun h =>
  jsonStreamPayload_ne_errorPayload t fr m (sseFrame_inj h)

theorem mem_unitFrames {f : String} {u : RequestOutput} (h : f ∈ unitFrames u) :
    ∃ t fr, f = sseFrame (jsonStreamPayload t fr) := by
  unfold unitFrames at h
  obtain ⟨it, _, rfl⟩ := List.mem_map.mp h
  exact ⟨it.text, it.finish_reason, rfl⟩

theorem mem_dataFrames {f : String} {units : List RequestOutput}
    (h : f ∈ (units.map unitFrames).flatten) :
    ∃ t fr, f = sseFrame (jsonStreamPayload t fr) := by
  obtain ⟨l, hl, hf⟩ := List.mem_flatten.mp h
  obtain ⟨u, _, rfl⟩ := List.mem_map.mp hl
  exact mem_unitFrames hf

theorem doneFrame_not_mem_dataFrames (units : List RequestOutput) :
    doneFrame ∉ (units.map unitFrames).flatten := by
  intro h
  obtain ⟨t, fr, hf⟩ := mem_dataFrames h
  exact dataFrame_ne_doneFrame t fr hf.symm

theorem errFrame_not_mem_dataFrames (units : List RequestOutput) (m : String) :
    sseFrame (jsonErrorPayload m) ∉ (units.map unitFrames).flatten := by
  intro h
  obtain ⟨t, fr, hf⟩ := mem_dataFrames h
  exact dataFrame_ne_errFrame t fr m hf.symm

theorem foldl_append_roleLine (messages : List ChatMessage) (acc : String) :
    messages.foldl (fun a m => a ++ roleLine m) acc = acc ++ fallbackBody messages := by
  induction messages generalizing acc with
  | nil => simp [fallbackBody]
  | cons m ms ih => simp [fallbackBody, List.foldl, ih, String.append_assoc]

/-! ### Claim theorems -/

/-- C3: on a streaming completions dispatch, the emitted SSE frame sequence is
non-empty; every frame is the `data: `-framing of either the `[DONE]` literal,
a `{"text":..., "finish_reason":...}` JSON object, or a `{"error":...}` JSON
object; when the engine iterator completes normally the sequence ends with
exactly one `[DONE]` frame and contains no error frame; when it raises, the
sequence ends with exactly one error frame and contains no `[DONE]` frame —
never both terminators and never neither. -/
theorem stream_sse_framing (outcome : EngineOutcome) :
    stream_completion outcome ≠ [] ∧
    (∀ f ∈ stream_completion outcome, f = doneFrame ∨
      (∃ t fr, f = sseFrame (jsonStreamPayload t fr)) ∨
      (∃ m, f = sseFrame (jsonErrorPayload m))) ∧
    (∀ units, outcome = .ok units →
      (stream_completion outcome).getLast? = some doneFrame ∧
      (stream_completion outcome).count doneFrame = 1 ∧
      ∀ m, sseFrame (jsonErrorPayload m) ∉ stream_completion outcome) ∧
    (∀ emitted msg, outcome = .raised emitted msg →
      (stream_completion outcome).getLast? = some (sseFrame (jsonErrorPayload msg)) ∧
      (stream_completion outcome).count (sseFrame (jsonErrorPayload msg)) = 1 ∧
      doneFrame ∉ stream_completion outcome) := by
  refine ⟨?_, ?_, ?_, ?_⟩
  · cases outcome <;> simp [stream_completion]
  · intro f hf
    cases outcome with
    | ok units =>
        simp only [stream_completion] at hf
        rcases List.mem_append.mp hf with h | h
        · exact Or.inr (Or.inl (mem_dataFrames h))
        · simp only [List.mem_singleton] at h
          exact Or.inl h
    | raised emitted msg =>
        simp only [stream_completion] at hf
        rcases List.mem_append.mp hf with h | h
        · exact Or.inr (Or.inl (mem_dataFrames h))
        · simp only [List.mem_singleton] at h
          exact Or.inr (Or.inr ⟨msg, h⟩)
  · rintro units rfl
    refine ⟨List.getLast?_concat _, ?_, ?_⟩
    · simp only [stream_completion, List.count_append]
      rw [List.count_eq_zero.mpr (doneFrame_not_mem_dataFrames units)]
      simp
    · intro m hmem
      simp only [stream_completion] at hmem
      rcases List.mem_append.mp hmem with h | h
      · exact errFrame_not_mem_dataFrames units m h
      · simp only [List.mem_singleton] at h
        exact errFrame_ne_doneFrame m h
  · rintro emitted msg rfl
    refine ⟨List.getLast?_concat _, ?_, ?_⟩
    · simp only [stream_completion, List.count_append]
      rw [List.count_eq_zero.mpr (errFrame_not_mem_dataFrames emitted msg)]
      simp
    · intro hmem
      simp only [stream_completion] at hmem
      rcases List.mem_append.mp hmem with h | h
      · exact doneFrame_not_mem_dataFrames emitted h
      · simp only [List.mem_singleton] at h
        exact errFrame_ne_doneFrame msg h.symm

/-- Witness for C3 at concrete engine outcomes: a one-unit successful stream
and a stream that raises with message "boom" before any unit. -/
theorem stream_sse_framing_witness :
    stream_completion (.ok [⟨some [1], [⟨"a", Option.none, [5]⟩]⟩]) ≠ [] ∧
    (stream_completion (.ok [⟨some [1], [⟨"a", Option.none, [5]⟩]⟩])).count doneFrame = 1 ∧
    (stream_completion (.ok [⟨some [1], [⟨"a", Option.none, [5]⟩]⟩])).getLast? = some doneFrame ∧
    (stream_completion (.raised [] "boom")).count (sseFrame (jsonErrorPayload "boom")) = 1 ∧
    doneFrame ∉ stream_completion (.raised [] "boom") :=
  ⟨(stream_sse_framing _).1,
    ((stream_sse_framing _).2.2.1 _ rfl).2.1,
    ((stream_sse_framing _).2.2.1 _ rfl).1,
    ((stream_sse_framing _).2.2.2 [] "boom" rfl).2.1,
    ((stream_sse_framing _).2.2.2 [] "boom" rfl).2.2⟩

/-- C7: with no model-specific chat template, the single user message "hi"
formats to exactly "Human: hi\n\nAssistant: "; in general the fallback emits
one "System: "/"Human: "/"Assistant: " line per message in order and then
appends "Assistant: ". -/
theorem fallback_prompt_format :
    format_chat_prompt Option.none [⟨.user, "hi"⟩] = "Human: hi\n\nAssistant: " ∧
    ∀ messages, format_chat_prompt Option.none messages =
      fallbackBody messages ++ "Assistant: " := by
  refine ⟨by decide, ?_⟩
  intro messages
  unfold format_chat_prompt
  rw [foldl_append_roleLine]
  simp

/-- C8: `GET /ping` answers 200 with body `{"status":"healthy"}` exactly when
the readiness flag is set, else 503 with body `{"status":"initializing"}`,
and no other response shape is possible. -/
theorem ping_health_check (r : Bool) :
    (r = true → health_check r = (200, statusBody "healthy")) ∧
    (r = false → health_check r = (503, statusBody "initializing")) ∧
    (health_check r = (200, statusBody "healthy") ∨
      health_check r = (503, statusBody "initializing")) ∧
    statusBody "healthy" = "\x7b\"status\":\"healthy\"\x7d" ∧
    statusBody "initializing" = "\x7b\"status\":\"initializing\"\x7d" := by
  cases r <;> refine ⟨?_, ?_, ?_, by decide, by decide⟩ <;> simp [health_check]

/-- Witness for C8 at both readiness values. -/
theorem ping_health_check_witness :
    health_check true = (200, statusBody "healthy") ∧
    health_check false = (503, statusBody "initializing") :=
  ⟨(ping_health_check true).1 rfl, (ping_health_check false).2.1 rfl⟩

/-- C4 counterexample: on the concrete two-unit stream whose cumulative texts
are "a" then "ab", the second SSE event carries text "ab" — the unit's
cumulative text — not the delta "b" the claim asserts. -/
theorem cumulative_text_counterexample :
    (stream_completion (.ok [⟨some [1], [⟨"a", Option.none, [5]⟩]⟩,
        ⟨some [1], [⟨"ab", some "length", [5, 6]⟩]⟩]))[1]? =
      some (sseFrame (jsonStreamPayload "ab" (some "length"))) ∧
    sseFrame (jsonStreamPayload "ab" (some "length")) ≠
      sseFrame (jsonStreamPayload "b" (some "length")) := by
  decide

/-- C4 as amended: for every incremental unit and every item of it, the
gateway emits one SSE event whose payload's "text" field is that item's
cumulative `text` value (the engine's whole output so far), together with its
finish_reason or null; the data frames of the stream are exactly those
events, in order, and nothing else precedes the terminator. -/
theorem stream_payload_per_unit (units : List RequestOutput) :
    (stream_completion (.ok units)).dropLast = (units.map unitFrames).flatten ∧
    (∀ u ∈ units, ∀ it ∈ u.outputs,
      sseFrame (jsonStreamPayload it.text it.finish_reason) ∈
        stream_completion (.ok units)) ∧
    (∀ f ∈ (units.map unitFrames).flatten, ∃ u ∈ units, ∃ it ∈ u.outputs,
      f = sseFrame (jsonStreamPayload it.text it.finish_reason)) := by
  refine ⟨?_, ?_, ?_⟩
  · simp [stream_completion]
  · intro u hu it hit
    simp only [stream_completion]
    refine List.mem_append.mpr (Or.inl ?_)
    refine List.mem_flatten.mpr ⟨unitFrames u, List.mem_map_of_mem _ hu, ?_⟩
    unfold unitFrames
    exact List.mem_map_of_mem _ hit
  · intro f hf
    obtain ⟨l, hl, hfl⟩ := List.mem_flatten.mp hf
    obtain ⟨u, hu, rfl⟩ := List.mem_map.mp hl
    unfold unitFrames at hfl
    obtain ⟨it, hit, rfl⟩ := List.mem_map.mp hfl
    exact ⟨u, hu, it, hit, rfl⟩

/-- Witness for the amended C4 at a concrete two-unit stream. -/
theorem stream_payload_per_unit_witness :
    sseFrame (jsonStreamPayload "ab" (some "length")) ∈
      stream_completion (.ok [⟨some [1], [⟨"a", Option.none, [5]⟩]⟩,
        ⟨some [1], [⟨"ab", some "length", [5, 6]⟩]⟩]) ∧
    (stream_completion (.ok [⟨some [1], [⟨"a", Option.none, [5]⟩]⟩,
        ⟨some [1], [⟨"ab", some "length", [5, 6]⟩]⟩])).dropLast =
      ([⟨some [1], [⟨"a", Option.none, [5]⟩]⟩,
        ⟨some [1], [⟨"ab", some "length", [5, 6]⟩]⟩].map unitFrames).flatten :=
  ⟨(stream_payload_per_unit _).2.1 ⟨some [1], [⟨"ab", some "length", [5, 6]⟩]⟩
      (by decide) ⟨"ab", some "length", [5, 6]⟩ (by decide),
    (stream_payload_per_unit _).1⟩

/-- C5: a completions request with `max_tokens = 0`, or `temperature = 2.5`
(here `mkRat 5 2`), or `top_p = 1.5` (here `mkRat 3 2`) is rejected as a
ValidationError by the pydantic field validation before the handler runs: no
sampling parameters are built and no generation job is submitted. -/
theorem out_of_range_rejected {α : Type} (st : EngState α) (freshId : Nat → String)
    (req : GenerationRequest) (outcome : EngineOutcome)
    (h : req.max_tokens = 0 ∨ req.temperature = mkRat 5 2 ∨ req.top_p = mkRat 3 2) :
    completionsRoute st freshId req outcome =
      (.failed 422 (create_error_response "ValidationError"
        "request field out of range" Option.none), {}) ∧
    (completionsRoute st freshId req outcome).2.paramsBuilt = false ∧
    (completionsRoute st freshId req outcome).2.submitted = false := by
  have hv : validGenerationRequest req = false := by
    rcases h with h | h | h <;> simp +decide [validGenerationRequest, h]
  refine ⟨?_, ?_, ?_⟩ <;> simp [completionsRoute, hv]

/-- Witness for C5 at a concrete request with temperature 2.5. -/
theorem out_of_range_rejected_witness :
    completionsRoute (α := Unit) ⟨some (), true⟩ (fun n => toString n)
      ⟨"p", 512, mkRat 5 2, mkRat 9 10, -1, 0, 0, .noStop, false⟩ (.ok []) =
      (.failed 422 (create_error_response "ValidationError"
        "request field out of range" Option.none), {}) :=
  (out_of_range_rejected _ _ _ _ (Or.inr (Or.inl rfl))).1

/-- C6: every successful buffered response, on the completions route and on
the chat route, satisfies `total_tokens = prompt_tokens + completion_tokens`,
including when `prompt_tokens` falls back to the whitespace word count of the
prompt. -/
theorem usage_totals_add_up {α : Type} (st : EngState α) (freshId : Nat → String)
    (outcome : EngineOutcome) :
    (∀ (req : GenerationRequest) (resp : GenerationResponse) (fl : Flags),
      completionsRoute st freshId req outcome = (.completion resp, fl) →
      resp.total_tokens = resp.prompt_tokens + resp.completion_tokens) ∧
    (∀ (tmpl : Option (List ChatMessage → String)) (mn : String)
      (creq : ChatCompletionRequest) (obj : ChatObject) (fl : Flags),
      chatRoute st freshId tmpl mn creq outcome = (.chat obj, fl) →
      obj.usage.total_tokens = obj.usage.prompt_tokens + obj.usage.completion_tokens) := by
  constructor
  · intro req resp fl h
    unfold completionsRoute generate_completion at h
    repeat' split at h
    all_goals try simp only [Prod.mk.injEq, RouteResult.completion.injEq] at h
    all_goals try simp at h
    all_goals (obtain ⟨h1, h2⟩ := h; subst h1; rfl)
  · intro tmpl mn creq obj fl h
    unfold chatRoute chat_completions at h
    repeat' split at h
    all_goals try simp only [Prod.mk.injEq, RouteResult.chat.injEq] at h
    all_goals try simp at h
    all_goals (obtain ⟨h1, h2⟩ := h; subst h1; rfl)

/-- Witness for C6: a concrete completions run whose engine output reports no
prompt token ids (so the word-count fallback fires: "hello world foo" gives
3), and a concrete chat run with reported prompt token ids. -/
theorem usage_totals_add_up_witness :
    ((⟨"out", some "length", 3, 2, 5⟩ : GenerationResponse).total_tokens =
      (⟨"out", some "length", 3, 2, 5⟩ : GenerationResponse).prompt_tokens +
        (⟨"out", some "length", 3, 2, 5⟩ : GenerationResponse).completion_tokens) ∧
    ((⟨"0", "m", "out", some "length", ⟨2, 2, 4⟩⟩ : ChatObject).usage.total_tokens =
      (⟨"0", "m", "out", some "length", ⟨2, 2, 4⟩⟩ : ChatObject).usage.prompt_tokens +
        (⟨"0", "m", "out", some "length", ⟨2, 2, 4⟩⟩ : ChatObject).usage.completion_tokens) :=
  ⟨(usage_totals_add_up (α := Unit) ⟨some (), true⟩ (fun n => toString n)
      (.ok [⟨Option.none, [⟨"out", some "length", [1, 2]⟩]⟩])).1
      ⟨"hello world foo", 512, mkRat 7 10, mkRat 9 10, -1, 0, 0, .noStop, false⟩
      ⟨"out", some "length", 3, 2, 5⟩ {paramsBuilt := true, submitted := true}
      (by decide),
    (usage_totals_add_up (α := Unit) ⟨some (), true⟩ (fun n => toString n)
      (.ok [⟨some [7, 8], [⟨"out", some "length", [1, 2]⟩]⟩])).2
      Option.none "m" ⟨[⟨.user, "hi"⟩], 512, mkRat 7 10, mkRat 9 10, .noStop, false⟩
      ⟨"0", "m", "out", some "length", ⟨2, 2, 4⟩⟩
      {paramsBuilt := true, formatted := true, submitted := true} (by decide)⟩

/-- C9: the chat route's result never depends on the request's `stream` flag
and is never an SSE stream, while the completions route dispatched with
`stream=true` does return the SSE stream. -/
theorem chat_route_never_streams {α : Type} (st : EngState α) (freshId : Nat → String)
    (tmpl : Option (List ChatMessage → String)) (mn : String)
    (req : ChatCompletionRequest) (outcome : EngineOutcome) :
    (∀ b : Bool, chatRoute st freshId tmpl mn {req with stream := b} outcome =
      chatRoute st freshId tmpl mn req outcome) ∧
    (∀ (frames : List String) (fl : Flags),
      chatRoute st freshId tmpl mn req outcome ≠ (.streamed frames, fl)) ∧
    (∀ req' : GenerationRequest, validGenerationRequest req' = true →
      req'.stream = true → st.ready = true → st.engine.isSome = true →
      completionsRoute st freshId req' outcome =
        (.streamed (stream_completion outcome),
          {paramsBuilt := true, submitted := true})) := by
  refine ⟨?_, ?_, ?_⟩
  · intro b; cases req; rfl
  · intro frames fl h
    unfold chatRoute chat_completions at h
    repeat' split at h
    all_goals simp at h
  · intro req' hv hs hr he
    obtain ⟨x, hx⟩ := Option.isSome_iff_exists.mp he
    simp [completionsRoute, generate_completion, hv, hs, hr, hx]

/-- Witness for C9: flipping `stream` on a concrete chat request leaves the
response unchanged; the same engine outcome on the completions route with
`stream=true` yields the SSE stream; and the concrete chat response is not a
stream. -/
theorem chat_route_never_streams_witness :
    (chatRoute (α := Unit) ⟨some (), true⟩ (fun n => toString n) Option.none "m"
      ⟨[⟨.user, "hi"⟩], 512, mkRat 7 10, mkRat 9 10, .noStop, true⟩ (.ok []) =
      chatRoute (α := Unit) ⟨some (), true⟩ (fun n => toString n) Option.none "m"
      ⟨[⟨.user, "hi"⟩], 512, mkRat 7 10, mkRat 9 10, .noStop, false⟩ (.ok [])) ∧
    (chatRoute (α := Unit) ⟨some (), true⟩ (fun n => toString n) Option.none "m"
      ⟨[⟨.user, "hi"⟩], 512, mkRat 7 10, mkRat 9 10, .noStop, false⟩ (.ok []) ≠
      (.streamed [], {})) ∧
    completionsRoute (α := Unit) ⟨some (), true⟩ (fun n => toString n)
      ⟨"p", 512, mkRat 7 10, mkRat 9 10, -1, 0, 0, .noStop, true⟩ (.ok []) =
      (.streamed (stream_completion (.ok [])),
        {paramsBuilt := true, submitted := true}) :=
  ⟨(chat_route_never_streams (α := Unit) ⟨some (), true⟩ (fun n => toString n)
      Option.none "m" ⟨[⟨.user, "hi"⟩], 512, mkRat 7 10, mkRat 9 10, .noStop, false⟩
      (.ok [])).1 true,
    (chat_route_never_streams (α := Unit) ⟨some (), true⟩ (fun n => toString n)
      Option.none "m" ⟨[⟨.user, "hi"⟩], 512, mkRat 7 10, mkRat 9 10, .noStop, false⟩
      (.ok [])).2.1 [] {},
    (chat_route_never_streams (α := Unit) ⟨some (), true⟩ (fun n => toString n)
      Option.none "m" ⟨[⟨.user, "hi"⟩], 512, mkRat 7 10, mkRat 9 10, .noStop, false⟩
      (.ok [])).2.2 ⟨"p", 512, mkRat 7 10, mkRat 9 10, -1, 0, 0, .noStop, true⟩
      (by decide) rfl rfl rfl⟩

/-- C10: the invariant "ready implies a live engine handle" holds in the
initial state, is preserved by every lifecycle transition (engine
construction success and failure, shutdown), hence holds in every reachable
state; and a request passing the readiness check observes a non-null handle. -/
theorem readiness_implies_engine {α : Type} :
    EngInv (initState α) ∧
    (∀ s s' : EngState α, EngStep α s s' → EngInv s → EngInv s') ∧
    (∀ s : EngState α, Relation.ReflTransGen (EngStep α) (initState α) s → EngInv s) ∧
    (∀ s : EngState α, readinessCheckPasses s = true → s.engine.isSome = true) := by
  have hinit : EngInv (initState α) := fun h => nomatch h
  have hstep : ∀ s s' : EngState α, EngStep α s s' → EngInv s → EngInv s' := by
    intro s s' hs hinv
    cases hs with
    | createOk h => intro _; rfl
    | createFail => intro hr; exact absurd hr (by simp)
    | shutdown =>
        by_cases he : s.engine.isSome = true
        · simp only [he, if_true]
          intro hr
          exact absurd hr (by simp)
        · simp only [Bool.not_eq_true] at he
          simp only [he, Bool.false_eq_true, if_false]
          exact hinv
  refine ⟨hinit, hstep, ?_, ?_⟩
  · intro s hreach
    induction hreach with
    | refl => exact hinit
    | tail _ h2 ih => exact hstep _ _ h2 ih
  · intro s h
    simp only [readinessCheckPasses, Bool.and_eq_true] at h
    exact h.2

/-- Witness for C10: the state just after a successful engine construction is
reachable, satisfies the invariant, and passes the readiness check with a
non-null handle. -/
theorem readiness_implies_engine_witness :
    (⟨some (), true⟩ : EngState Unit).engine.isSome = true ∧
    ((⟨some (), true⟩ : EngState Unit).ready = true →
      (⟨some (), true⟩ : EngState Unit).engine.isSome = true) :=
  ⟨(readiness_implies_engine (α := Unit)).2.2.2 ⟨some (), true⟩ rfl,
    (readiness_implies_engine (α := Unit)).2.2.1 ⟨some (), true⟩
      (Relation.ReflTransGen.single (EngStep.createOk (initState Unit) ()))⟩

/-- C1 (evaluation at the failing input): a chat request with an empty
messages list, on a ready engine, is indeed rejected before any prompt
formatting and before any job submission, but the `HTTPException(400,
ValidationError)` built at handler.py:204-206 is caught by the route's own
`except Exception` (handler.py:255-259), so the client receives HTTP 500
with kind "ChatCompletionError" wrapping the stringified 400 — not the
ValidationError/400 the claim states. -/
theorem chat_empty_messages_envelope :
    chatRoute (α := Unit) ⟨some (), true⟩ (fun n => toString n) Option.none "model"
      ⟨[], 512, mkRat 7 10, mkRat 9 10, .noStop, false⟩ (.ok []) =
      (.failed 500 (create_error_response "ChatCompletionError"
        ("Chat completion failed: " ++ httpExcStr 400
          (create_error_response "ValidationError" "No messages provided" Option.none))
        (some "0")), {}) ∧
    (chatRoute (α := Unit) ⟨some (), true⟩ (fun n => toString n) Option.none "model"
      ⟨[], 512, mkRat 7 10, mkRat 9 10, .noStop, false⟩ (.ok [])).2.formatted = false ∧
    (chatRoute (α := Unit) ⟨some (), true⟩ (fun n => toString n) Option.none "model"
      ⟨[], 512, mkRat 7 10, mkRat 9 10, .noStop, false⟩ (.ok [])).2.submitted = false ∧
    ("ChatCompletionError" : String) ≠ "ValidationError" ∧ (500 : Nat) ≠ 400 := by
  decide

/-- C2 counterexample: when the engine raises on the chat route, the envelope
kind the client receives is "ChatCompletionError", which is outside the
spec's four-category taxonomy. -/
theorem chat_failure_kind_outside_taxonomy :
    chatRoute (α := Unit) ⟨some (), true⟩ (fun n => toString n) Option.none "model"
      ⟨[⟨.user, "hi"⟩], 512, mkRat 7 10, mkRat 9 10, .noStop, false⟩
      (.raised [] "boom") =
      (.failed 500 (create_error_response "ChatCompletionError"
        ("Chat completion failed: " ++ "boom") (some "1")),
        {paramsBuilt := true, formatted := true, submitted := true}) ∧
    ("ChatCompletionError" : String) ∉ (["ValidationError", "ServiceUnavailable",
      "GenerationError", "EngineInitError"] : List String) := by
  decide

/-- C2 as amended: every failure envelope on the completions route carries a
kind from the taxonomy (engine failures always "GenerationError" with 500),
but every in-handler failure on the chat route — engine failures included —
carries kind "ChatCompletionError" (500), a tag outside the four-category
taxonomy; the chat route's possible kinds are ValidationError,
ServiceUnavailable and ChatCompletionError. -/
theorem error_kinds_per_route {α : Type} (st : EngState α) (freshId : Nat → String)
    (outcome : EngineOutcome) (s : Nat) (env : ErrorResponse) (fl : Flags) :
    (∀ req : GenerationRequest,
      completionsRoute st freshId req outcome = (.failed s env, fl) →
      env.error ∈ (["ValidationError", "ServiceUnavailable", "GenerationError"] : List String) ∧
      (env.error = "GenerationError" → s = 500)) ∧
    (∀ (tmpl : Option (List ChatMessage → String)) (mn : String)
      (creq : ChatCompletionRequest),
      chatRoute st freshId tmpl mn creq outcome = (.failed s env, fl) →
      env.error ∈ (["ValidationError", "ServiceUnavailable", "ChatCompletionError"] : List String) ∧
      (env.error = "ChatCompletionError" → s = 500)) ∧
    (∀ (req : GenerationRequest) (em : List RequestOutput) (msg : String),
      req.stream = false → validGenerationRequest req = true →
      st.ready = true → st.engine.isSome = true →
      completionsRoute st freshId req (.raised em msg) =
        (.failed 500 (create_error_response "GenerationError"
          ("Generation failed: " ++ msg) (some (freshId 1))),
          {paramsBuilt := true, submitted := true})) := by
  refine ⟨?_, ?_, ?_⟩
  · intro req h
    unfold completionsRoute generate_completion at h
    repeat' split at h
    all_goals try simp only [Prod.mk.injEq, RouteResult.failed.injEq] at h
    all_goals try simp at h
    all_goals (obtain ⟨⟨hs, henv⟩, hfl⟩ := h; subst hs; subst henv; simp [create_error_response])
  · intro tmpl mn creq h
    unfold chatRoute chat_completions at h
    repeat' split at h
    all_goals try simp only [Prod.mk.injEq, RouteResult.failed.injEq] at h
    all_goals try simp at h
    all_goals (obtain ⟨⟨hs, henv⟩, hfl⟩ := h; subst hs; subst henv; simp [create_error_response])
  · intro req em msg hs2 hv hr he
    obtain ⟨x, hx⟩ := Option.isSome_iff_exists.mp he
    simp [completionsRoute, generate_completion, hv, hs2, hr, hx]

/-- Witness for the amended C2: a concrete not-ready rejection classified as
ServiceUnavailable, and a concrete engine failure on the completions route
yielding GenerationError with HTTP 500. -/
theorem error_kinds_per_route_witness :
    ((create_error_response "ServiceUnavailable" "Engine not ready" Option.none).error ∈
      (["ValidationError", "ServiceUnavailable", "GenerationError"] : List String) ∧
      ((create_error_response "ServiceUnavailable" "Engine not ready" Option.none).error =
        "GenerationError" → (503 : Nat) = 500)) ∧
    completionsRoute (α := Unit) ⟨some (), true⟩ (fun n => toString n)
      ⟨"p", 512, mkRat 7 10, mkRat 9 10, -1, 0, 0, .noStop, false⟩ (.raised [] "kaput") =
      (.failed 500 (create_error_response "GenerationError"
        ("Generation failed: " ++ "kaput") (some "1")),
        {paramsBuilt := true, submitted := true}) :=
  ⟨(error_kinds_per_route (α := Unit) (initState Unit) (fun n => toString n)
      (.ok []) 503 (create_error_response "ServiceUnavailable" "Engine not ready" Option.none)
      {}).1 ⟨"p", 512, mkRat 7 10, mkRat 9 10, -1, 0, 0, .noStop, false⟩ (by decide),
    (error_kinds_per_route (α := Unit) ⟨some (), true⟩ (fun n => toString n)
      (.ok []) 0 (create_error_response "" "" Option.none) {}).2.2
      ⟨"p", 512, mkRat 7 10, mkRat 9 10, -1, 0, 0, .noStop, false⟩ [] "kaput"
      rfl (by decide) rfl rfl⟩

end VllmLB
